import Mathlib

/-!
Verification development for the Gemini student-verification bot
(`src/bot.py`).  The core under study is the class `GeminiVerifier`
(methods `_parse_id`, `check_link`, `verify`, `_request`, `_upload_s3`),
the fingerprint generator `generate_fingerprint`, and the outcome
recorder `Stats.record`.

The network is modelled as an oracle `Env`: the `k`-th HTTP call of a run
receives `Env.http k`, which is either `.ok (parsedBody, statusCode)` or
`.error msg` (a transport exception with text `msg`, which the method
`_request` re-raises as `Exception ("Request failed: " ++ msg)`).  The
pre-signed S3 PUT performed by `_upload_s3` never raises in the source
(bare `except` returning `False`), so it is modelled by the boolean
`Env.upload`.  The document generator `generate_transcript` renders a PNG
with PIL; its byte content is irrelevant to every claim, so the rendered
bytes are the oracle field `Env.transcript` applied to exactly the
arguments the source passes (first, last, school, dob).

Each operation returns its result together with the full trace of
observable events (HTTP requests with their payloads, the S3 PUT, the
document generation, and every `Stats.record` call), so that claims about
call counts, ordering and payload contents are statements about the trace.
An `Except.error` escaping an operation models a Python exception
propagating to the caller.
-/

/-- Organization dict as passed to `verify` (built in `handle_uni_callback`):
keys `id`, `idExtended`, `name`. -/
structure Org where
  id : String
  idExtended : String
  name : String
deriving DecidableEq, Repr

/-- The `user_data` dict passed to `verify`. -/
structure UserData where
  firstName : String
  lastName : String
  email : String
  birthDate : String
deriving DecidableEq, Repr

/-- HTTP methods used by the verifier. -/
inductive Method
  | GET
  | POST
  | DELETE
deriving DecidableEq, Repr

/-- JSON request bodies sent by `verify`.  `personalInfo` is the body built
at lines 243-259 of `src/bot.py` (including the metadata block);
`docUploadFiles` is the body at line 290; `empty` is `body=None`. -/
inductive RequestBody
  | empty
  | personalInfo (firstName lastName birthDate email phoneNumber : String)
      (org : Org) (deviceFingerprintHash locale : String)
      (marketConsentValue : Bool) (verificationId refererUrl flags submissionOptIn : String)
  | docUploadFiles (fileName mimeType : String) (fileSize : Nat)
deriving DecidableEq, Repr

/-- One entry of the `documents` array of a docUpload response; the source
reads `documents[0].get("uploadUrl")`. -/
structure DocEntry where
  uploadUrl : Option String
deriving DecidableEq, Repr

/-- The fields of a parsed response body the source ever reads:
`currentStep` (`data.get("currentStep")`), `errorIds`
(`data.get("errorIds", [])`) and `documents` (`data.get("documents")`,
absent or empty modelled as `[]`). -/
structure Response where
  currentStep : Option String := none
  errorIds : List String := []
  documents : List DocEntry := []
deriving DecidableEq, Repr

/-- Observable events of one run, in order. -/
inductive Event
  | http (m : Method) (endpoint : String) (body : RequestBody)
  | s3put (url : Option String) (data : List Nat)
  | genDoc (first last school dob : String)
  | record (org : String) (ok : Bool)
deriving DecidableEq, Repr

/-- Environment oracle for one run: response (or transport exception text)
of the `k`-th HTTP call, outcome of the single S3 PUT, and the bytes
rendered by `generate_transcript`. -/
structure Env where
  http : Nat → Except String (Response × Nat)
  upload : Bool
  transcript : String → String → String → String → List Nat

/-- Result dict of `verify`: keys `success`, `instant`, `message`,
`document`, `error` (absent keys are `none`). -/
structure VerifyResult where
  success : Bool
  instant : Option Bool := none
  message : Option String := none
  document : Option (List Nat) := none
  error : Option String := none
deriving DecidableEq, Repr

/-- Result dict of `check_link`: keys `valid`, `step`, `error`. -/
structure CheckResult where
  valid : Bool
  step : Option String := none
  error : Option String := none
deriving DecidableEq, Repr

/-- PROGRAM_ID constant, line 30 of `src/bot.py`. -/
def PROGRAM_ID : String := "67c8c14f5f17a83b745e3f82"

/-- Hex characters accepted by the capture group `([a-f0-9]+)` under
`re.IGNORECASE`. -/
def isHexChar (c : Char) : Bool :=
  (('a' ≤ c && c ≤ 'f') || ('A' ≤ c && c ≤ 'F') || ('0' ≤ c && c ≤ '9'))

/-- Case-insensitive literal match of the pattern characters against the
head of the input, returning the remaining input on success. -/
def matchCI : List Char → List Char → Option (List Char)
  | [], rest => some rest
  | _ :: _, [] => none
  | p :: ps, c :: cs => if p.toLower == c.toLower then matchCI ps cs else none

/-- Longest run of hex characters at the head of the input. -/
def takeHex : List Char → List Char
  | [] => []
  | c :: cs => if isHexChar c then c :: takeHex cs else []

/-- Leftmost match of `verificationId=([a-f0-9]+)` (case-insensitive), as
`re.search` performs it: try each start position left to right; a marker
occurrence not followed by at least one hex character is skipped. -/
def findId : List Char → Option String
  | [] => none
  | c :: cs =>
    match matchCI ("verificationId=".toList) (c :: cs) with
    | some rest =>
        let h := takeHex rest
        if h.isEmpty then findId cs else some (String.mk h)
    | none => findId cs

namespace GeminiVerifier

/-- Model of `GeminiVerifier._parse_id` (lines 189-192):
`re.search(r"verificationId=([a-f0-9]+)", url, re.IGNORECASE)`, returning
the captured hex token or `None`. -/
def parse_id (url : String) : Option String :=
  findId url.toList

end GeminiVerifier

/-- The seven entropy components sampled by `generate_fingerprint`
(lines 85-93): current time in ms, `str(random.random())`, a resolution,
a timezone offset, a locale, a platform string, a core count. -/
structure Entropy where
  timeMs : Nat
  rnd : String
  resolution : String
  timezone : Int
  language : String
  platformDesc : String
  cores : Nat

/-- Model of `generate_fingerprint` (lines 79-94): joins the components with `|`
and hashes with MD5.  The digest function is a parameter (`md5hex`), since
the hash internals are irrelevant to the claims; the source applies it to
exactly this joined string. -/
def generate_fingerprint (md5hex : String → String) (e : Entropy) : String :=
  md5hex (String.intercalate ("|")
    [toString e.timeMs, e.rnd, e.resolution, toString e.timezone,
     e.language, e.platformDesc, toString e.cores])

/-- The run-scoped state of a `GeminiVerifier` instance that the modelled
methods read: the url, the parsed id, and the fingerprint. -/
structure Verifier where
  url : String
  vid : Option String
  fingerprint : String
deriving DecidableEq, Repr

namespace GeminiVerifier

/-- Model of `GeminiVerifier.__init__` (lines 178-183): parses the id from the url
and generates the fingerprint exactly once, storing it for the run. -/
def init (md5hex : String → String) (e : Entropy) (url : String) : Verifier :=
  { url := url, vid := parse_id url, fingerprint := generate_fingerprint md5hex e }

end GeminiVerifier

/-- GET/POST/DELETE endpoint `/verification/{vid}`. -/
def probeEndpoint (vid : String) : String :=
  "/verification/" ++ vid

/-- Endpoint `/verification/{vid}/step/{step}`. -/
def stepEndpoint (vid stp : String) : String :=
  "/verification/" ++ vid ++ "/step/" ++ stp

/-- Model of `GeminiVerifier._request` (lines 194-205) as seen through the oracle:
the `k`-th call returns the parsed body and status, or raises
`Exception ("Request failed: " ++ e)` on a transport exception `e`. -/
def doRequest (env : Env) (k : Nat) : Except String (Response × Nat) × Nat :=
  match env.http k with
  | .ok rs => (.ok rs, k + 1)
  | .error e => (.error ("Request failed: " ++ e), k + 1)

/-- The personal-info submission body (lines 243-259). -/
def personalInfoBody (v : Verifier) (vid : String) (ud : UserData) (org : Org) : RequestBody :=
  .personalInfo ud.firstName ud.lastName ud.birthDate ud.email ("") org
    v.fingerprint ("en-US") false vid
    ("https://services.sheerid.com/verify/" ++ PROGRAM_ID ++ "/?verificationId=" ++ vid)
    ("\x7b\"collect-info-step-email-first\":\"default\"\x7d")
    ("By submitting...")

/-- Python `repr` of a list of strings, as interpolated by
`errorIds` interpolation of the source (an f-string of the list). -/
def pyListRepr (xs : List String) : String :=
  "[" ++ String.intercalate (", ") (xs.map (fun s => "\x27" ++ s ++ "\x27")) ++ "]"

/-- The sso branch (lines 281-284): DELETE the sso step, then re-probe and
take `currentStep` (the status of the re-probe is ignored by the source).
Returns the new current step, the next call index, and the new events. -/
def ssoStage (env : Env) (vid : String) (k : Nat) :
    Except String String × Nat × List Event :=
  let delEv : Event := .http .DELETE (stepEndpoint vid ("sso")) .empty
  match doRequest env k with
  | (.error e, k1) => (.error e, k1, [delEv])
  | (.ok _, k1) =>
    let getEv : Event := .http .GET (probeEndpoint vid) .empty
    match doRequest env k1 with
    | (.error e, k2) => (.error e, k2, [delEv, getEv])
    | (.ok (cd, _), k2) => (.ok (cd.currentStep.getD ("")), k2, [delEv, getEv])

/-- The docUpload branch and the final generic branch (lines 286-313):
if the current step is `docUpload`, generate the transcript, POST the
upload-slot request, PUT the bytes, POST `completeDocUpload` and succeed
with the document; otherwise return the generic
`Submitted (step: ...)` success with no recorder call. -/
def docStage (env : Env) (vid : String) (ud : UserData) (org : Org)
    (cs : String) (k : Nat) : Except String VerifyResult × Nat × List Event :=
  if cs == "docUpload" then
    let doc := env.transcript ud.firstName ud.lastName org.name ud.birthDate
    let genEv : Event := .genDoc ud.firstName ud.lastName org.name ud.birthDate
    let postEv : Event := .http .POST (stepEndpoint vid ("docUpload"))
      (.docUploadFiles ("transcript.png") ("image/png") doc.length)
    match doRequest env k with
    | (.error e, k1) => (.error e, k1, [genEv, postEv])
    | (.ok (data, _), k1) =>
      match data.documents with
      | [] =>
        (.ok { success := false, error := some ("No upload URL") }, k1,
         [genEv, postEv, .record org.name false])
      | d :: _ =>
        let putEv : Event := .s3put d.uploadUrl doc
        if env.upload then
          let compEv : Event := .http .POST (stepEndpoint vid ("completeDocUpload")) .empty
          match doRequest env k1 with
          | (.error e, k2) => (.error e, k2, [genEv, postEv, putEv, compEv])
          | (.ok _, k2) =>
            (.ok { success := true, instant := some false,
                   message := some ("📄 Document uploaded! Wait 24-48h for manual review."),
                   document := some doc }, k2,
             [genEv, postEv, putEv, compEv, .record org.name true])
        else
          (.ok { success := false, error := some ("Upload failed") }, k1,
           [genEv, postEv, putEv, .record org.name false])
  else
    (.ok { success := true, instant := some false,
           message := some ("✅ Submitted (step: " ++ cs ++ ")") }, k, [])

/-- Dispatch on the current step after the (possible) personal-info
submission, in source order (lines 273-313): `success` first, then the
sso skip feeding into the docUpload/generic tail. -/
def stepDispatch (env : Env) (vid : String) (ud : UserData) (org : Org)
    (cs : String) (k : Nat) : Except String VerifyResult × Nat × List Event :=
  if cs == "success" then
    (.ok { success := true, instant := some true,
           message := some ("✅ Verified instantly! No document needed.") }, k,
     [.record org.name true])
  else if cs == "sso" then
    match ssoStage env vid k with
    | (.error e, k1, evs) => (.error e, k1, evs)
    | (.ok cs1, k1, evs) =>
      let (r, k2, evs2) := docStage env vid ud org cs1 k1
      (r, k2, evs ++ evs2)
  else
    docStage env vid ud org cs k

/-- Body of the `try` block of `verify` (lines 239-313): probe the current
step (a non-200 probe degrades the step to `""`), run the
`collectStudentPersonalInfo` submission when needed with its two failure
exits, then dispatch on the resulting step. -/
def verifyCore (env : Env) (v : Verifier) (vid : String) (ud : UserData) (org : Org) :
    Except String VerifyResult × Nat × List Event :=
  let probeEv : Event := .http .GET (probeEndpoint vid) .empty
  match doRequest env 0 with
  | (.error e, k) => (.error e, k, [probeEv])
  | (.ok (cd, cstatus), k) =>
    let current_step := if cstatus == 200 then cd.currentStep.getD ("") else ""
    if current_step == "collectStudentPersonalInfo" then
      let submitEv : Event := .http .POST (stepEndpoint vid ("collectStudentPersonalInfo"))
        (personalInfoBody v vid ud org)
      match doRequest env k with
      | (.error e, k1) => (.error e, k1, [probeEv, submitEv])
      | (.ok (data, status), k1) =>
        if status ≠ 200 then
          (.ok { success := false, error := some ("Submit failed: " ++ toString status) }, k1,
           [probeEv, submitEv, .record org.name false])
        else if data.currentStep == some ("error") then
          (.ok { success := false, error := some ("Error: " ++ pyListRepr data.errorIds) }, k1,
           [probeEv, submitEv, .record org.name false])
        else
          let (r, k2, evs) := stepDispatch env vid ud org (data.currentStep.getD ("")) k1
          (r, k2, [probeEv, submitEv] ++ evs)
    else
      let (r, k1, evs) := stepDispatch env vid ud org current_step k
      (r, k1, [probeEv] ++ evs)

namespace GeminiVerifier

/-- Model of `GeminiVerifier.verify` (lines 232-318): reference validation first
(no network, no recorder on failure); then the `try` body with the
exception handler that, with the organization bound, records a failure
and returns the exception text as the error. -/
def verify (v : Verifier) (env : Env) (ud : UserData) (org : Org) :
    VerifyResult × List Event :=
  match v.vid with
  | none => ({ success := false, error := some ("Invalid verification URL") }, [])
  | some vid =>
    match verifyCore env v vid ud org with
    | (.ok res, _, evs) => (res, evs)
    | (.error e, _, evs) =>
      ({ success := false, error := some e }, evs ++ [.record org.name false])

/-- Model of `GeminiVerifier.check_link` (lines 214-230).  There is no exception
handler in the source method: a transport exception raised by `_request`
propagates to the caller, modelled by the `Except.error` result. -/
def check_link (v : Verifier) (env : Env) : Except String CheckResult × List Event :=
  match v.vid with
  | none => (.ok { valid := false, error := some ("Invalid URL") }, [])
  | some vid =>
    let probeEv : Event := .http .GET (probeEndpoint vid) .empty
    match doRequest env 0 with
    | (.error e, _) => (.error e, [probeEv])
    | (.ok (data, status), _) =>
      if status ≠ 200 then
        (.ok { valid := false, error := some ("HTTP " ++ toString status) }, [probeEv])
      else
        let stp := data.currentStep.getD ("")
        if stp == "collectStudentPersonalInfo" || stp == "docUpload" || stp == "sso" then
          (.ok { valid := true, step := some stp }, [probeEv])
        else if stp == "success" then
          (.ok { valid := false, error := some ("Already verified") }, [probeEv])
        else if stp == "pending" then
          (.ok { valid := false, error := some ("Already pending review") }, [probeEv])
        else
          (.ok { valid := false, error := some ("Invalid step: " ++ stp) }, [probeEv])

end GeminiVerifier

/-- Persistent statistics data (`Stats._load` default shape). -/
structure StatsData where
  total : Nat
  succeeded : Nat
  failed : Nat
  orgs : List (String × Nat × Nat)
deriving DecidableEq, Repr

namespace Stats

/-- Update of the per-org tally list: create the `(0, 0)` entry when the
org is absent, then increment the matching counter. -/
def bumpOrg (orgs : List (String × Nat × Nat)) (org : String) (ok : Bool) :
    List (String × Nat × Nat) :=
  match orgs with
  | [] => [(org, if ok then (1, 0) else (0, 1))]
  | (o, s, f) :: rest =>
    if o == org then (o, if ok then (s + 1, f) else (s, f + 1)) :: rest
    else (o, s, f) :: bumpOrg rest org ok

/-- Model of `Stats.record` (lines 58-64): bump the total, the global success or
failure counter, and the per-org counter. -/
def record (d : StatsData) (org : String) (ok : Bool) : StatsData :=
  { total := d.total + 1,
    succeeded := if ok then d.succeeded + 1 else d.succeeded,
    failed := if ok then d.failed else d.failed + 1,
    orgs := bumpOrg d.orgs org ok }

end Stats

/-- The `Stats.record` calls of a trace, in order, as `(orgName, ok)`. -/
def recordsOf (evs : List Event) : List (String × Bool) :=
  evs.filterMap (fun e => match e with | .record o b => some (o, b) | _ => none)

/-- Replay the `Stats.record` calls of a trace onto a `StatsData`. -/
def runStats (d : StatsData) (evs : List Event) : StatsData :=
  (recordsOf evs).foldl (fun d ob => Stats.record d ob.1 ob.2) d

/-- The fingerprint carried in the payload of an event, when it carries one:
only the personal-info body has a `deviceFingerprintHash` field. -/
def Event.fingerprintOf : Event → Option String
  | .http _ _ (.personalInfo _ _ _ _ _ _ fp _ _ _ _ _ _) => some fp
  | _ => none

/-- Count of HTTP events with the given method. -/
def isHttpOf (m : Method) : Event → Bool
  | .http m2 _ _ => decide (m2 = m)
  | _ => false

/-- Number of HTTP calls of a given method in a trace. -/
def countMethod (m : Method) (evs : List Event) : Nat :=
  (evs.filter (isHttpOf m)).length

/-- Concrete fixtures used by witnesses and counterexamples. -/
def u0 : String := "https://services.sheerid.com/verify/x?verificationId=abc123"

/-- A verifier instance parsed from `u0`, with a fixed fingerprint. -/
def v0 : Verifier := { url := u0, vid := GeminiVerifier.parse_id u0, fingerprint := "f0" }

/-- Concrete applicant data. -/
def ud0 : UserData :=
  { firstName := "Ada", lastName := "Lovelace", email := "ada@uni.edu", birthDate := "2002-05-15" }

/-- Concrete organization. -/
def org0 : Org := { id := "42", idExtended := "42", name := "Test University" }

/-- Concrete entropy record. -/
def ent0 : Entropy :=
  { timeMs := 1700000000000, rnd := "0.5", resolution := "1920x1080", timezone := -5,
    language := "en-US", platformDesc := "Win32", cores := 8 }

/-- A response whose `currentStep` is the given step. -/
def respStep (stp : String) : Response := { currentStep := some stp }

/-- Environment whose probe reports step `pending` with status 200. -/
def envG : Env :=
  { http := fun _ => .ok (respStep ("pending"), 200), upload := true,
    transcript := fun _ _ _ _ => [] }

/-- Environment whose every HTTP call raises a transport exception. -/
def envErr : Env :=
  { http := fun _ => .error ("boom"), upload := true, transcript := fun _ _ _ _ => [] }

/-- Environment answering the probe with `collectStudentPersonalInfo` and
the submission with status 201 (a 2xx status other than 200). -/
def envC5 : Env :=
  { http := fun k =>
      if k == 0 then .ok (respStep ("collectStudentPersonalInfo"), 200)
      else .ok (respStep ("success"), 201),
    upload := true, transcript := fun _ _ _ _ => [] }

/-- The document bytes `verify` generates for a given applicant and
organization: `generate_transcript(first, last, org["name"], birthDate)`. -/
def docBytes (env : Env) (ud : UserData) (org : Org) : List Nat :=
  env.transcript ud.firstName ud.lastName org.name ud.birthDate

/-- The five-event docUpload tail: generate the transcript, POST the
docUpload slot request declaring fileName/mimeType/fileSize, PUT the bytes
to the returned uploadUrl, POST completeDocUpload, record a success. -/
def docUploadTrace (env : Env) (vid : String) (ud : UserData) (org : Org)
    (d : DocEntry) : List Event :=
  [.genDoc ud.firstName ud.lastName org.name ud.birthDate,
   .http .POST (stepEndpoint vid ("docUpload"))
     (.docUploadFiles ("transcript.png") ("image/png") (docBytes env ud org).length),
   .s3put d.uploadUrl (docBytes env ud org),
   .http .POST (stepEndpoint vid ("completeDocUpload")) .empty,
   .record org.name true]

/-- The success outcome of the docUpload branch, carrying the bytes. -/
def docUploadSuccess (env : Env) (ud : UserData) (org : Org) : VerifyResult :=
  { success := true, instant := some false,
    message := some ("📄 Document uploaded! Wait 24-48h for manual review."),
    document := some (docBytes env ud org) }

/-- Concrete environment for the docUpload path: probe says `docUpload`,
the slot request returns one document with an upload url, the PUT
succeeds, the completion call returns 200. -/
def envDoc : Env :=
  { http := fun k =>
      if k == 0 then .ok (respStep ("docUpload"), 200)
      else if k == 1 then
        .ok ({ currentStep := some ("docUpload"),
               documents := [{ uploadUrl := some ("https://s3/presigned") }] }, 200)
      else .ok (respStep ("pending"), 200),
    upload := true, transcript := fun _ _ _ _ => [1, 2, 3] }

/-- Record/outcome agreement for a stage result: an outcome comes with
exactly one matching record entry, or with none on a success path that
carries no error (the generic submitted branch); a raised exception comes
with none (the handler of the caller records). -/
def recOk (org : Org) : Except String VerifyResult × Nat × List Event → Prop
  | (.ok res, _, evs) => recordsOf evs = [(org.name, res.success)] ∨
      (recordsOf evs = [] ∧ res.success = true ∧ res.error = none)
  | (.error _, _, evs) => recordsOf evs = []

/-- All events of a trace either carry no fingerprint or carry `fp`. -/
def fpOnly (fp : String) (evs : List Event) : Prop :=
  ∀ ev ∈ evs, Event.fingerprintOf ev = none ∨ Event.fingerprintOf ev = some fp

/-- Claim C2: for every reference string from which no verification id can
be extracted, `verify` returns the validation failure with error
`Invalid verification URL` and `check_link` returns a validation failure,
both immediately, with zero network calls and zero recorder updates
(empty event traces). -/
theorem C2_invalid_reference (md5hex : String → String) (e : Entropy) (url : String)
    (env : Env) (ud : UserData) (org : Org)
    (h : GeminiVerifier.parse_id url = none) :
    GeminiVerifier.verify (GeminiVerifier.init md5hex e url) env ud org =
      ({ success := false, error := some ("Invalid verification URL") }, []) ∧
    GeminiVerifier.check_link (GeminiVerifier.init md5hex e url) env =
      (.ok { valid := false, error := some ("Invalid URL") }, []) := by
  constructor <;>
    simp [GeminiVerifier.verify, GeminiVerifier.check_link, GeminiVerifier.init, h]

/-- Witness for C2 at a concrete malformed reference. -/
theorem C2_invalid_reference_witness :
    GeminiVerifier.parse_id ("https://example.com/?id=zz") = none ∧
    GeminiVerifier.verify
        (GeminiVerifier.init (fun s => s) ent0 ("https://example.com/?id=zz")) envG ud0 org0 =
      ({ success := false, error := some ("Invalid verification URL") }, []) ∧
    GeminiVerifier.check_link
        (GeminiVerifier.init (fun s => s) ent0 ("https://example.com/?id=zz")) envG =
      (.ok { valid := false, error := some ("Invalid URL") }, []) :=
  ⟨by decide,
   (C2_invalid_reference (fun s => s) ent0 ("https://example.com/?id=zz") envG ud0 org0
      (by decide)).1,
   (C2_invalid_reference (fun s => s) ent0 ("https://example.com/?id=zz") envG ud0 org0
      (by decide)).2⟩

/-- Claim C10: when the initial status probe returns a non-200 status, the
current step degrades to the empty string, the personal-info submission is
skipped, and `verify` falls through to the generic branch, returning a
success outcome with message `✅ Submitted (step: )` and making no further
network call and no recorder update. -/
theorem C10_failed_probe (env : Env) (v : Verifier) (vid : String)
    (ud : UserData) (org : Org) (r0 : Response) (s0 : Nat)
    (hv : v.vid = some vid) (h0 : env.http 0 = .ok (r0, s0)) (hs : s0 ≠ 200) :
    GeminiVerifier.verify v env ud org =
      ({ success := true, instant := some false,
         message := some ("✅ Submitted (step: )") },
       [.http .GET (probeEndpoint vid) .empty]) := by
  have hb : (s0 == 200) = false := beq_eq_false_iff_ne.mpr hs
  simp [GeminiVerifier.verify, verifyCore, doRequest, stepDispatch, docStage, hv, h0, hb]

/-- Witness for C10 with a probe answering status 500. -/
theorem C10_failed_probe_witness :
    v0.vid = some ("abc123") ∧
    ({ http := fun _ => .ok (respStep ("pending"), 500), upload := true,
       transcript := fun _ _ _ _ => [] } : Env).http 0 = .ok (respStep ("pending"), 500) ∧
    GeminiVerifier.verify v0
        { http := fun _ => .ok (respStep ("pending"), 500), upload := true,
          transcript := fun _ _ _ _ => [] } ud0 org0 =
      ({ success := true, instant := some false,
         message := some ("✅ Submitted (step: )") },
       [.http .GET (probeEndpoint ("abc123")) .empty]) :=
  ⟨by decide, rfl,
   C10_failed_probe _ v0 ("abc123") ud0 org0 (respStep ("pending")) 500
     (by decide) rfl (by decide)⟩

/-- Counterexample to claim C4: `check_link` has no exception handler, so
a transport exception raised by `_request` during its probe propagates to
the caller (the `Except.error` result models the uncaught exception)
instead of being returned as a structured failure dict. -/
theorem C4_counterexample :
    GeminiVerifier.check_link v0 envErr =
      (.error ("Request failed: boom"),
       [.http .GET (probeEndpoint ("abc123")) .empty]) := by rfl

/-- Claim C4 as amended: `verify` never propagates a transport exception —
for an exception at the probe or at the personal-info submission it
returns a structured failure carrying the exception text (and records a
failure for the bound organization) — but `check_link` propagates the
exception raised during its probe to the caller. -/
theorem C4_amended :
    (∀ (env : Env) (v : Verifier) (vid : String) (ud : UserData) (org : Org) (e : String),
       v.vid = some vid → env.http 0 = .error e →
       GeminiVerifier.verify v env ud org =
         ({ success := false, error := some ("Request failed: " ++ e) },
          [.http .GET (probeEndpoint vid) .empty, .record org.name false])) ∧
    (∀ (env : Env) (v : Verifier) (vid : String) (ud : UserData) (org : Org)
       (r0 : Response) (e : String),
       v.vid = some vid → env.http 0 = .ok (r0, 200) →
       r0.currentStep = some ("collectStudentPersonalInfo") →
       env.http 1 = .error e →
       GeminiVerifier.verify v env ud org =
         ({ success := false, error := some ("Request failed: " ++ e) },
          [.http .GET (probeEndpoint vid) .empty,
           .http .POST (stepEndpoint vid ("collectStudentPersonalInfo"))
             (personalInfoBody v vid ud org),
           .record org.name false])) ∧
    (∀ (env : Env) (v : Verifier) (vid : String) (e : String),
       v.vid = some vid → env.http 0 = .error e →
       GeminiVerifier.check_link v env =
         (.error ("Request failed: " ++ e),
          [.http .GET (probeEndpoint vid) .empty])) := by
  refine ⟨?_, ?_, ?_⟩
  · intro env v vid ud org e hv h0
    simp [GeminiVerifier.verify, verifyCore, doRequest, hv, h0]
  · intro env v vid ud org r0 e hv h0 hc h1
    simp [GeminiVerifier.verify, verifyCore, doRequest, hv, h0, hc, h1]
  · intro env v vid e hv h0
    simp [GeminiVerifier.check_link, doRequest, hv, h0]

/-- Witness for C4 at the concrete all-raising environment. -/
theorem C4_amended_witness :
    v0.vid = some ("abc123") ∧ envErr.http 0 = .error ("boom") ∧
    GeminiVerifier.verify v0 envErr ud0 org0 =
      ({ success := false, error := some ("Request failed: boom") },
       [.http .GET (probeEndpoint ("abc123")) .empty,
        .record ("Test University") false]) :=
  ⟨by decide, rfl,
   C4_amended.1 envErr v0 ("abc123") ud0 org0 ("boom") (by decide) rfl⟩

/-- Counterexample to claim C5: the source tests `status != 200`, not
membership in the 2xx range, so a 201 response to the personal-info
submission — a 2xx status — is treated as a submission failure. -/
theorem C5_counterexample :
    (GeminiVerifier.verify v0 envC5 ud0 org0).1 =
      { success := false, error := some ("Submit failed: 201") } := by decide

/-- Claim C5 as amended: a submission status other than exactly 200 makes
`verify` record a failure and return a failure outcome reporting that
status code; a status of exactly 200 is not treated as a submission
failure (here: a 200 response advancing to `success` yields the instant
success outcome). -/
theorem C5_amended :
    (∀ (env : Env) (v : Verifier) (vid : String) (ud : UserData) (org : Org)
       (r0 r1 : Response) (s : Nat),
       v.vid = some vid → env.http 0 = .ok (r0, 200) →
       r0.currentStep = some ("collectStudentPersonalInfo") →
       env.http 1 = .ok (r1, s) → s ≠ 200 →
       GeminiVerifier.verify v env ud org =
         ({ success := false, error := some ("Submit failed: " ++ toString s) },
          [.http .GET (probeEndpoint vid) .empty,
           .http .POST (stepEndpoint vid ("collectStudentPersonalInfo"))
             (personalInfoBody v vid ud org),
           .record org.name false])) ∧
    (∀ (env : Env) (v : Verifier) (vid : String) (ud : UserData) (org : Org)
       (r0 r1 : Response),
       v.vid = some vid → env.http 0 = .ok (r0, 200) →
       r0.currentStep = some ("collectStudentPersonalInfo") →
       env.http 1 = .ok (r1, 200) → r1.currentStep = some ("success") →
       GeminiVerifier.verify v env ud org =
         ({ success := true, instant := some true,
            message := some ("✅ Verified instantly! No document needed.") },
          [.http .GET (probeEndpoint vid) .empty,
           .http .POST (stepEndpoint vid ("collectStudentPersonalInfo"))
             (personalInfoBody v vid ud org),
           .record org.name true])) := by
  constructor
  · intro env v vid ud org r0 r1 s hv h0 hc h1 hs
    simp [GeminiVerifier.verify, verifyCore, doRequest, stepDispatch, hv, h0, hc, h1, hs]
  · intro env v vid ud org r0 r1 hv h0 hc h1 hr
    simp [GeminiVerifier.verify, verifyCore, doRequest, stepDispatch, hv, h0, hc, h1, hr]

/-- Witness for C5: status 500 gives the reported failure, status 200 with
step `success` proceeds to the instant success. -/
theorem C5_amended_witness :
    v0.vid = some ("abc123") ∧ (500 : Nat) ≠ 200 ∧
    GeminiVerifier.verify v0
        { http := fun k =>
            if k == 0 then .ok (respStep ("collectStudentPersonalInfo"), 200)
            else .ok (respStep ("success"), 500),
          upload := true, transcript := fun _ _ _ _ => [] } ud0 org0 =
      ({ success := false, error := some ("Submit failed: 500") },
       [.http .GET (probeEndpoint ("abc123")) .empty,
        .http .POST (stepEndpoint ("abc123") ("collectStudentPersonalInfo"))
          (personalInfoBody v0 ("abc123") ud0 org0),
        .record ("Test University") false]) ∧
    GeminiVerifier.verify v0
        { http := fun k =>
            if k == 0 then .ok (respStep ("collectStudentPersonalInfo"), 200)
            else .ok (respStep ("success"), 200),
          upload := true, transcript := fun _ _ _ _ => [] } ud0 org0 =
      ({ success := true, instant := some true,
         message := some ("✅ Verified instantly! No document needed.") },
       [.http .GET (probeEndpoint ("abc123")) .empty,
        .http .POST (stepEndpoint ("abc123") ("collectStudentPersonalInfo"))
          (personalInfoBody v0 ("abc123") ud0 org0),
        .record ("Test University") true]) :=
  ⟨by decide, by decide,
   C5_amended.1 _ v0 ("abc123") ud0 org0 (respStep ("collectStudentPersonalInfo"))
     (respStep ("success")) 500 (by decide) rfl rfl rfl (by decide),
   C5_amended.2 _ v0 ("abc123") ud0 org0 (respStep ("collectStudentPersonalInfo"))
     (respStep ("success")) (by decide) rfl rfl rfl rfl⟩

/-- Claim C6: for a probe answering with status 200, `check_link`
classifies the current step as the claim states — valid for
`collectStudentPersonalInfo`, `docUpload` and `sso`; `Already verified`
for `success`; `Already pending review` for `pending`; a generic
`Invalid step: ...` naming the step otherwise — and in every case its
trace is the single GET probe, with no mutating call. -/
theorem C6_check_link_classification (env : Env) (v : Verifier) (vid : String)
    (r0 : Response) (hv : v.vid = some vid) (h0 : env.http 0 = .ok (r0, 200)) :
    ((r0.currentStep.getD ("") = "collectStudentPersonalInfo" ∨
      r0.currentStep.getD ("") = "docUpload" ∨ r0.currentStep.getD ("") = "sso") →
      GeminiVerifier.check_link v env =
        (.ok { valid := true, step := some (r0.currentStep.getD ("")) },
         [.http .GET (probeEndpoint vid) .empty])) ∧
    (r0.currentStep.getD ("") = "success" →
      GeminiVerifier.check_link v env =
        (.ok { valid := false, error := some ("Already verified") },
         [.http .GET (probeEndpoint vid) .empty])) ∧
    (r0.currentStep.getD ("") = "pending" →
      GeminiVerifier.check_link v env =
        (.ok { valid := false, error := some ("Already pending review") },
         [.http .GET (probeEndpoint vid) .empty])) ∧
    (r0.currentStep.getD ("") ∉
        (["collectStudentPersonalInfo", "docUpload", "sso", "success", "pending"] : List String) →
      GeminiVerifier.check_link v env =
        (.ok { valid := false, error := some ("Invalid step: " ++ r0.currentStep.getD ("")) },
         [.http .GET (probeEndpoint vid) .empty])) := by
  refine ⟨?_, ?_, ?_, ?_⟩
  · rintro (h | h | h) <;>
      simp [GeminiVerifier.check_link, doRequest, hv, h0, h]
  · intro h
    simp [GeminiVerifier.check_link, doRequest, hv, h0, h]
  · intro h
    simp [GeminiVerifier.check_link, doRequest, hv, h0, h]
  · intro h
    simp only [List.mem_cons, List.not_mem_nil, or_false] at h
    push_neg at h
    obtain ⟨h1, h2, h3, h4, h5⟩ := h
    simp [GeminiVerifier.check_link, doRequest, hv, h0,
      beq_eq_false_iff_ne.mpr h1, beq_eq_false_iff_ne.mpr h2,
      beq_eq_false_iff_ne.mpr h3, beq_eq_false_iff_ne.mpr h4,
      beq_eq_false_iff_ne.mpr h5]

/-- Witness for C6 at two concrete probes: step `docUpload` is valid, step
`weird` is the generic invalid-step error. -/
theorem C6_check_link_classification_witness :
    v0.vid = some ("abc123") ∧
    GeminiVerifier.check_link v0
        { http := fun _ => .ok (respStep ("docUpload"), 200), upload := true,
          transcript := fun _ _ _ _ => [] } =
      (.ok { valid := true, step := some ("docUpload") },
       [.http .GET (probeEndpoint ("abc123")) .empty]) ∧
    GeminiVerifier.check_link v0
        { http := fun _ => .ok (respStep ("weird"), 200), upload := true,
          transcript := fun _ _ _ _ => [] } =
      (.ok { valid := false, error := some ("Invalid step: weird") },
       [.http .GET (probeEndpoint ("abc123")) .empty]) :=
  ⟨by decide,
   (C6_check_link_classification _ v0 ("abc123") (respStep ("docUpload"))
      (by decide) rfl).1 (by decide),
   (C6_check_link_classification _ v0 ("abc123") (respStep ("weird"))
      (by decide) rfl).2.2.2 (by decide)⟩

/-- Claim C7: whether the step `success` comes from the probe or from the
personal-info submission response, `verify` returns the instant success
outcome (`instant = true`, no document) and records one success for the
bound organization. -/
theorem C7_instant_success :
    (∀ (env : Env) (v : Verifier) (vid : String) (ud : UserData) (org : Org) (r0 : Response),
       v.vid = some vid → env.http 0 = .ok (r0, 200) →
       r0.currentStep = some ("success") →
       GeminiVerifier.verify v env ud org =
         ({ success := true, instant := some true,
            message := some ("✅ Verified instantly! No document needed.") },
          [.http .GET (probeEndpoint vid) .empty, .record org.name true])) ∧
    (∀ (env : Env) (v : Verifier) (vid : String) (ud : UserData) (org : Org) (r0 r1 : Response),
       v.vid = some vid → env.http 0 = .ok (r0, 200) →
       r0.currentStep = some ("collectStudentPersonalInfo") →
       env.http 1 = .ok (r1, 200) → r1.currentStep = some ("success") →
       GeminiVerifier.verify v env ud org =
         ({ success := true, instant := some true,
            message := some ("✅ Verified instantly! No document needed.") },
          [.http .GET (probeEndpoint vid) .empty,
           .http .POST (stepEndpoint vid ("collectStudentPersonalInfo"))
             (personalInfoBody v vid ud org),
           .record org.name true])) := by
  constructor
  · intro env v vid ud org r0 hv h0 hc
    simp [GeminiVerifier.verify, verifyCore, doRequest, stepDispatch, hv, h0, hc]
  · intro env v vid ud org r0 r1 hv h0 hc h1 hr
    simp [GeminiVerifier.verify, verifyCore, doRequest, stepDispatch, hv, h0, hc, h1, hr]

/-- Witness for C7: a probe that reports `success` directly. -/
theorem C7_instant_success_witness :
    v0.vid = some ("abc123") ∧
    GeminiVerifier.verify v0
        { http := fun _ => .ok (respStep ("success"), 200), upload := true,
          transcript := fun _ _ _ _ => [] } ud0 org0 =
      ({ success := true, instant := some true,
         message := some ("✅ Verified instantly! No document needed.") },
       [.http .GET (probeEndpoint ("abc123")) .empty,
        .record ("Test University") true]) :=
  ⟨by decide,
   C7_instant_success.1 _ v0 ("abc123") ud0 org0 (respStep ("success"))
     (by decide) rfl rfl⟩

/-- Claim C3: when the current step is `docUpload` — read directly from
the probe, or reached from the submission response after
`collectStudentPersonalInfo` — `verify` performs, in this exact order with
no step skipped: generate the document bytes, POST the docUpload request
declaring fileName/mimeType/fileSize, PUT the bytes to the returned
uploadUrl, POST completeDocUpload, and returns the success outcome
(`instant = false`) carrying the document bytes. -/
theorem C3_docUpload_sequence :
    (∀ (env : Env) (v : Verifier) (vid : String) (ud : UserData) (org : Org)
       (r0 r1 r2 : Response) (s1 s2 : Nat) (d : DocEntry) (ds : List DocEntry),
       v.vid = some vid → env.http 0 = .ok (r0, 200) →
       r0.currentStep = some ("docUpload") →
       env.http 1 = .ok (r1, s1) → r1.documents = d :: ds →
       env.upload = true → env.http 2 = .ok (r2, s2) →
       GeminiVerifier.verify v env ud org =
         (docUploadSuccess env ud org,
          [.http .GET (probeEndpoint vid) .empty] ++ docUploadTrace env vid ud org d)) ∧
    (∀ (env : Env) (v : Verifier) (vid : String) (ud : UserData) (org : Org)
       (r0 r1 r2 r3 : Response) (s2 s3 : Nat) (d : DocEntry) (ds : List DocEntry),
       v.vid = some vid → env.http 0 = .ok (r0, 200) →
       r0.currentStep = some ("collectStudentPersonalInfo") →
       env.http 1 = .ok (r1, 200) → r1.currentStep = some ("docUpload") →
       env.http 2 = .ok (r2, s2) → r2.documents = d :: ds →
       env.upload = true → env.http 3 = .ok (r3, s3) →
       GeminiVerifier.verify v env ud org =
         (docUploadSuccess env ud org,
          [.http .GET (probeEndpoint vid) .empty,
           .http .POST (stepEndpoint vid ("collectStudentPersonalInfo"))
             (personalInfoBody v vid ud org)] ++ docUploadTrace env vid ud org d)) := by
  constructor
  · intro env v vid ud org r0 r1 r2 s1 s2 d ds hv h0 hc h1 hd hu h2
    simp [GeminiVerifier.verify, verifyCore, doRequest, stepDispatch, docStage,
      docUploadTrace, docUploadSuccess, docBytes, hv, h0, hc, h1, hd, hu, h2]
  · intro env v vid ud org r0 r1 r2 r3 s2 s3 d ds hv h0 hc h1 hr h2 hd hu h3
    simp [GeminiVerifier.verify, verifyCore, doRequest, stepDispatch, docStage,
      docUploadTrace, docUploadSuccess, docBytes, hv, h0, hc, h1, hr, h2, hd, hu, h3]

/-- Witness for C3 at the concrete docUpload environment. -/
theorem C3_docUpload_sequence_witness :
    v0.vid = some ("abc123") ∧ envDoc.upload = true ∧
    GeminiVerifier.verify v0 envDoc ud0 org0 =
      (docUploadSuccess envDoc ud0 org0,
       [.http .GET (probeEndpoint ("abc123")) .empty] ++
         docUploadTrace envDoc ("abc123") ud0 org0 { uploadUrl := some ("https://s3/presigned") }) :=
  ⟨by decide, rfl,
   C3_docUpload_sequence.1 envDoc v0 ("abc123") ud0 org0
     (respStep ("docUpload"))
     { currentStep := some ("docUpload"),
       documents := [{ uploadUrl := some ("https://s3/presigned") }] }
     (respStep ("pending")) 200 200 { uploadUrl := some ("https://s3/presigned") } []
     (by decide) rfl rfl rfl rfl rfl rfl⟩

/-- Counting HTTP calls of a method distributes over trace concatenation. -/
theorem countMethod_append (m : Method) (a b : List Event) :
    countMethod m (a ++ b) = countMethod m a + countMethod m b := by
  simp [countMethod, List.filter_append]

/-- The docUpload/generic tail issues no DELETE and no GET call. -/
theorem docStage_methods (env : Env) (vid : String) (ud : UserData) (org : Org)
    (cs : String) (k : Nat) :
    countMethod .DELETE (docStage env vid ud org cs k).2.2 = 0 ∧
    countMethod .GET (docStage env vid ud org cs k).2.2 = 0 := by
  unfold docStage
  split
  · dsimp only
    split
    · simp [countMethod, isHttpOf]
    · split
      · simp [countMethod, isHttpOf]
      · split
        · split
          · simp [countMethod, isHttpOf]
          · simp [countMethod, isHttpOf]
        · simp [countMethod, isHttpOf]
  · simp [countMethod, isHttpOf]

/-- Claim C8: when the probed step is `sso`, `verify` issues exactly one
DELETE (on the sso step, immediately after the probe) and exactly one
re-probe GET; the branch runs at most once, and when the re-probed step is
not `docUpload` — in particular when it is still `sso` — the run
terminates right there with the generic submitted outcome. -/
theorem C8_sso_branch (env : Env) (v : Verifier) (vid : String) (ud : UserData)
    (org : Org) (r0 r1 r2 : Response) (s1 s2 : Nat)
    (hv : v.vid = some vid) (h0 : env.http 0 = .ok (r0, 200))
    (hc : r0.currentStep = some ("sso"))
    (h1 : env.http 1 = .ok (r1, s1)) (h2 : env.http 2 = .ok (r2, s2)) :
    (∃ tail,
      (GeminiVerifier.verify v env ud org).2 =
        [.http .GET (probeEndpoint vid) .empty,
         .http .DELETE (stepEndpoint vid ("sso")) .empty,
         .http .GET (probeEndpoint vid) .empty] ++ tail ∧
      countMethod .DELETE tail = 0 ∧ countMethod .GET tail = 0) ∧
    (countMethod .DELETE (GeminiVerifier.verify v env ud org).2 = 1 ∧
     countMethod .GET (GeminiVerifier.verify v env ud org).2 = 2) ∧
    (r2.currentStep.getD ("") ≠ "docUpload" →
      GeminiVerifier.verify v env ud org =
        ({ success := true, instant := some false,
           message := some ("✅ Submitted (step: " ++ r2.currentStep.getD ("") ++ ")") },
         [.http .GET (probeEndpoint vid) .empty,
          .http .DELETE (stepEndpoint vid ("sso")) .empty,
          .http .GET (probeEndpoint vid) .empty])) := by
  have hds := docStage_methods env vid ud org (r2.currentStep.getD ("")) 3
  rcases hdoc : docStage env vid ud org (r2.currentStep.getD ("")) 3 with ⟨r, k3, tl⟩
  rw [hdoc] at hds
  have hds1 : countMethod Method.DELETE tl = 0 := hds.1
  have hds2 : countMethod Method.GET tl = 0 := hds.2
  have hcore : verifyCore env v vid ud org =
      (r, k3,
       [.http .GET (probeEndpoint vid) .empty,
        .http .DELETE (stepEndpoint vid ("sso")) .empty,
        .http .GET (probeEndpoint vid) .empty] ++ tl) := by
    simp [verifyCore, doRequest, stepDispatch, ssoStage, h0, hc, h1, h2, hdoc]
  have htail : ∃ tail,
      (GeminiVerifier.verify v env ud org).2 =
        [.http .GET (probeEndpoint vid) .empty,
         .http .DELETE (stepEndpoint vid ("sso")) .empty,
         .http .GET (probeEndpoint vid) .empty] ++ tail ∧
      countMethod .DELETE tail = 0 ∧ countMethod .GET tail = 0 := by
    cases r with
    | ok res =>
      refine ⟨tl, ?_, hds1, hds2⟩
      simp [GeminiVerifier.verify, hv, hcore]
    | error e =>
      refine ⟨tl ++ [.record org.name false], ?_, ?_, ?_⟩
      · simp [GeminiVerifier.verify, hv, hcore]
      · rw [countMethod_append, hds1]
        simp [countMethod, isHttpOf]
      · rw [countMethod_append, hds2]
        simp [countMethod, isHttpOf]
  refine ⟨htail, ?_, ?_⟩
  · rcases htail with ⟨tail, heq, hd, hg⟩
    rw [heq]
    constructor
    · rw [countMethod_append, hd]
      simp [countMethod, isHttpOf]
    · rw [countMethod_append, hg]
      simp [countMethod, isHttpOf]
  · intro hstp
    simp [GeminiVerifier.verify, verifyCore, doRequest, stepDispatch, ssoStage,
      docStage, hv, h0, hc, h1, h2, beq_eq_false_iff_ne.mpr hstp]

/-- Witness for C8 with a resource that still reports `sso` after the
DELETE. -/
theorem C8_sso_branch_witness :
    v0.vid = some ("abc123") ∧
    GeminiVerifier.verify v0
        { http := fun _ => .ok (respStep ("sso"), 200), upload := true,
          transcript := fun _ _ _ _ => [] } ud0 org0 =
      ({ success := true, instant := some false,
         message := some ("✅ Submitted (step: sso)") },
       [.http .GET (probeEndpoint ("abc123")) .empty,
        .http .DELETE (stepEndpoint ("abc123") ("sso")) .empty,
        .http .GET (probeEndpoint ("abc123")) .empty]) :=
  ⟨by decide,
   (C8_sso_branch _ v0 ("abc123") ud0 org0 (respStep ("sso")) (respStep ("sso"))
      (respStep ("sso")) 200 200 (by decide) rfl rfl rfl rfl).2.2 (by decide)⟩

/-- The map `recordsOf` distributes over concatenation. -/
theorem recordsOf_append (a b : List Event) :
    recordsOf (a ++ b) = recordsOf a ++ recordsOf b := by
  simp [recordsOf]

/-- Prepending record-free events preserves record/outcome agreement. -/
theorem recOk_prepend (org : Org) (pre : List Event) (hpre : recordsOf pre = [])
    (x : Except String VerifyResult × Nat × List Event) (hx : recOk org x) :
    recOk org (x.1, x.2.1, pre ++ x.2.2) := by
  rcases x with ⟨r, k, evs⟩
  cases r <;> simp_all [recOk, recordsOf_append, hpre]

/-- The docUpload/generic tail satisfies record/outcome agreement. -/
theorem docStage_recOk (env : Env) (vid : String) (ud : UserData) (org : Org)
    (cs : String) (k : Nat) : recOk org (docStage env vid ud org cs k) := by
  unfold docStage
  split
  · dsimp only
    split
    · simp [recOk, recordsOf]
    · split
      · simp [recOk, recordsOf]
      · split
        · split
          · simp [recOk, recordsOf]
          · simp [recOk, recordsOf]
        · simp [recOk, recordsOf]
  · simp [recOk, recordsOf]

/-- The sso stage emits no record call. -/
theorem ssoStage_records (env : Env) (vid : String) (k : Nat) :
    recordsOf (ssoStage env vid k).2.2 = [] := by
  unfold ssoStage
  split
  · simp [recordsOf]
  · split <;> simp [recordsOf]

/-- The step dispatch satisfies record/outcome agreement. -/
theorem stepDispatch_recOk (env : Env) (vid : String) (ud : UserData) (org : Org)
    (cs : String) (k : Nat) : recOk org (stepDispatch env vid ud org cs k) := by
  unfold stepDispatch
  split
  · simp [recOk, recordsOf]
  · split
    · have hsso := ssoStage_records env vid k
      rcases hs : ssoStage env vid k with ⟨rs, k1, evs⟩
      rw [hs] at hsso
      cases rs with
      | error e => exact hsso
      | ok cs1 =>
        dsimp only
        have hd := docStage_recOk env vid ud org cs1 k1
        rcases hq : docStage env vid ud org cs1 k1 with ⟨r2, k2, evs2⟩
        rw [hq] at hd
        try rw [hq]
        exact recOk_prepend org evs hsso (r2, k2, evs2) hd
    · exact docStage_recOk env vid ud org cs k

/-- The body of `verify` satisfies record/outcome agreement. -/
theorem verifyCore_recOk (env : Env) (v : Verifier) (vid : String) (ud : UserData)
    (org : Org) : recOk org (verifyCore env v vid ud org) := by
  rcases h0 : env.http 0 with e | ⟨cd, cstatus⟩
  · simp [verifyCore, doRequest, h0, recOk, recordsOf]
  · by_cases hcol :
      (if cstatus = 200 then cd.currentStep.getD ("") else "") =
        "collectStudentPersonalInfo"
    · rcases h1 : env.http 1 with e | ⟨data, status⟩
      · simp [verifyCore, doRequest, h0, h1, hcol, recOk, recordsOf]
      · by_cases hs : status = 200
        · by_cases herr : data.currentStep = some ("error")
          · simp [verifyCore, doRequest, h0, h1, hcol, hs, herr, recOk, recordsOf]
          · have hsd := stepDispatch_recOk env vid ud org (data.currentStep.getD ("")) 2
            rcases hq : stepDispatch env vid ud org (data.currentStep.getD ("")) 2
              with ⟨r, k2, evs⟩
            rw [hq] at hsd
            have hcore : verifyCore env v vid ud org =
                (r, k2,
                 [.http .GET (probeEndpoint vid) .empty,
                  .http .POST (stepEndpoint vid ("collectStudentPersonalInfo"))
                    (personalInfoBody v vid ud org)] ++ evs) := by
              simp [verifyCore, doRequest, h0, h1, hcol, hs, herr, hq]
            rw [hcore]
            exact recOk_prepend org _ (by simp [recordsOf]) (r, k2, evs) hsd
        · simp [verifyCore, doRequest, h0, h1, hcol, hs, recOk, recordsOf]
    · have hsd := stepDispatch_recOk env vid ud org
        (if cstatus = 200 then cd.currentStep.getD ("") else "") 1
      rcases hq : stepDispatch env vid ud org
          (if cstatus = 200 then cd.currentStep.getD ("") else "") 1 with ⟨r, k2, evs⟩
      rw [hq] at hsd
      have hcore : verifyCore env v vid ud org =
          (r, k2, [.http .GET (probeEndpoint vid) .empty] ++ evs) := by
        simp [verifyCore, doRequest, h0, hcol, hq]
      rw [hcore]
      exact recOk_prepend org _ (by simp [recordsOf]) (r, k2, evs) hsd

/-- Counterexample to claim C1: a run whose probe answers step `pending`
with status 200 binds the organization, reaches the terminal generic
`Submitted (step: pending)` branch, returns success — and makes zero
`Stats.record` calls, contradicting the claimed exactly-one recorder call
on that branch. -/
theorem C1_counterexample :
    GeminiVerifier.verify v0 envG ud0 org0 =
      ({ success := true, instant := some false,
         message := some ("✅ Submitted (step: pending)") },
       [.http .GET (probeEndpoint ("abc123")) .empty]) ∧
    recordsOf (GeminiVerifier.verify v0 envG ud0 org0).2 = [] := by
  constructor <;> decide

/-- Claim C1 as amended: once the reference is valid (organization bound),
every run of `verify` makes at most one `Stats.record` call, and any call
made carries the organization name and exactly the success boolean of the
outcome; the only paths with zero record calls are success outcomes that
carry no error — the generic `Submitted (step: X)` branch (including the
failed-probe fallthrough). -/
theorem C1_record_per_outcome (env : Env) (v : Verifier) (vid : String)
    (ud : UserData) (org : Org) (hv : v.vid = some vid) :
    recordsOf (GeminiVerifier.verify v env ud org).2 =
        [(org.name, (GeminiVerifier.verify v env ud org).1.success)] ∨
      (recordsOf (GeminiVerifier.verify v env ud org).2 = [] ∧
       (GeminiVerifier.verify v env ud org).1.success = true ∧
       (GeminiVerifier.verify v env ud org).1.error = none) := by
  have h := verifyCore_recOk env v vid ud org
  rcases hc : verifyCore env v vid ud org with ⟨r, k, evs⟩
  rw [hc] at h
  cases r with
  | ok res =>
    have hvv : GeminiVerifier.verify v env ud org = (res, evs) := by
      simp [GeminiVerifier.verify, hv, hc]
    rw [hvv]
    exact h
  | error e =>
    have hvv : GeminiVerifier.verify v env ud org =
        ({ success := false, error := some e }, evs ++ [.record org.name false]) := by
      simp [GeminiVerifier.verify, hv, hc]
    rw [hvv]
    left
    have h2 : recordsOf evs = [] := h
    rw [recordsOf_append, h2]
    simp [recordsOf]

/-- Witness for C1 at a concrete bound-organization run. -/
theorem C1_record_per_outcome_witness :
    v0.vid = some ("abc123") ∧
    (recordsOf (GeminiVerifier.verify v0 envC5 ud0 org0).2 =
        [(org0.name, (GeminiVerifier.verify v0 envC5 ud0 org0).1.success)] ∨
      (recordsOf (GeminiVerifier.verify v0 envC5 ud0 org0).2 = [] ∧
       (GeminiVerifier.verify v0 envC5 ud0 org0).1.success = true ∧
       (GeminiVerifier.verify v0 envC5 ud0 org0).1.error = none)) :=
  ⟨by decide, C1_record_per_outcome envC5 v0 ("abc123") ud0 org0 (by decide)⟩

/-- Concatenation preserves the fingerprint invariant. -/
theorem fpOnly_append {fp : String} {a b : List Event}
    (ha : fpOnly fp a) (hb : fpOnly fp b) : fpOnly fp (a ++ b) := by
  intro ev hev
  rcases List.mem_append.mp hev with h | h
  exacts [ha ev h, hb ev h]

/-- The docUpload/generic tail carries no fingerprint in any payload. -/
theorem docStage_fpOnly (fp : String) (env : Env) (vid : String) (ud : UserData)
    (org : Org) (cs : String) (k : Nat) :
    fpOnly fp (docStage env vid ud org cs k).2.2 := by
  unfold docStage
  split
  · dsimp only
    split
    · simp [fpOnly, Event.fingerprintOf]
    · split
      · simp [fpOnly, Event.fingerprintOf]
      · split
        · split
          · simp [fpOnly, Event.fingerprintOf]
          · simp [fpOnly, Event.fingerprintOf]
        · simp [fpOnly, Event.fingerprintOf]
  · simp [fpOnly, Event.fingerprintOf]

/-- The sso stage carries no fingerprint in any payload. -/
theorem ssoStage_fpOnly (fp : String) (env : Env) (vid : String) (k : Nat) :
    fpOnly fp (ssoStage env vid k).2.2 := by
  unfold ssoStage
  split
  · simp [fpOnly, Event.fingerprintOf]
  · split <;> simp [fpOnly, Event.fingerprintOf]

/-- The step dispatch carries no fingerprint in any payload. -/
theorem stepDispatch_fpOnly (fp : String) (env : Env) (vid : String) (ud : UserData)
    (org : Org) (cs : String) (k : Nat) :
    fpOnly fp (stepDispatch env vid ud org cs k).2.2 := by
  unfold stepDispatch
  split
  · simp [fpOnly, Event.fingerprintOf]
  · split
    · have hsso := ssoStage_fpOnly fp env vid k
      rcases hs : ssoStage env vid k with ⟨rs, k1, evs⟩
      rw [hs] at hsso
      cases rs with
      | error e => exact hsso
      | ok cs1 =>
        dsimp only
        have hd := docStage_fpOnly fp env vid ud org cs1 k1
        rcases hq : docStage env vid ud org cs1 k1 with ⟨r2, k2, evs2⟩
        rw [hq] at hd
        try rw [hq]
        exact fpOnly_append hsso hd
    · exact docStage_fpOnly fp env vid ud org cs k

/-- The body of `verify` sends the instance fingerprint, and only it, in
every payload that carries a fingerprint. -/
theorem verifyCore_fpOnly (env : Env) (v : Verifier) (vid : String) (ud : UserData)
    (org : Org) : fpOnly v.fingerprint (verifyCore env v vid ud org).2.2 := by
  rcases h0 : env.http 0 with e | ⟨cd, cstatus⟩
  · simp [verifyCore, doRequest, h0, fpOnly, Event.fingerprintOf]
  · by_cases hcol :
      (if cstatus = 200 then cd.currentStep.getD ("") else "") =
        "collectStudentPersonalInfo"
    · rcases h1 : env.http 1 with e | ⟨data, status⟩
      · simp [verifyCore, doRequest, h0, h1, hcol, fpOnly, Event.fingerprintOf,
          personalInfoBody]
      · by_cases hs : status = 200
        · by_cases herr : data.currentStep = some ("error")
          · simp [verifyCore, doRequest, h0, h1, hcol, hs, herr, fpOnly,
              Event.fingerprintOf, personalInfoBody]
          · have hsd := stepDispatch_fpOnly v.fingerprint env vid ud org
              (data.currentStep.getD ("")) 2
            rcases hq : stepDispatch env vid ud org (data.currentStep.getD ("")) 2
              with ⟨r, k2, evs⟩
            rw [hq] at hsd
            have hcore : (verifyCore env v vid ud org).2.2 =
                [.http .GET (probeEndpoint vid) .empty,
                 .http .POST (stepEndpoint vid ("collectStudentPersonalInfo"))
                   (personalInfoBody v vid ud org)] ++ evs := by
              simp [verifyCore, doRequest, h0, h1, hcol, hs, herr, hq]
            rw [hcore]
            exact fpOnly_append
              (by simp [fpOnly, Event.fingerprintOf, personalInfoBody]) hsd
        · simp [verifyCore, doRequest, h0, h1, hcol, hs, fpOnly,
            Event.fingerprintOf, personalInfoBody]
    · have hsd := stepDispatch_fpOnly v.fingerprint env vid ud org
        (if cstatus = 200 then cd.currentStep.getD ("") else "") 1
      rcases hq : stepDispatch env vid ud org
          (if cstatus = 200 then cd.currentStep.getD ("") else "") 1 with ⟨r, k2, evs⟩
      rw [hq] at hsd
      have hcore : (verifyCore env v vid ud org).2.2 =
          [.http .GET (probeEndpoint vid) .empty] ++ evs := by
        simp [verifyCore, doRequest, h0, hcol, hq]
      rw [hcore]
      exact fpOnly_append (by simp [fpOnly, Event.fingerprintOf]) hsd

/-- Every payload of a full `verify` run that carries a fingerprint
carries the instance fingerprint. -/
theorem verify_fpOnly (v : Verifier) (env : Env) (ud : UserData) (org : Org) :
    fpOnly v.fingerprint (GeminiVerifier.verify v env ud org).2 := by
  cases hv : v.vid with
  | none => simp [GeminiVerifier.verify, hv, fpOnly]
  | some vid =>
    have h := verifyCore_fpOnly env v vid ud org
    rcases hc : verifyCore env v vid ud org with ⟨r, k, evs⟩
    rw [hc] at h
    cases r with
    | ok res =>
      have hvv : (GeminiVerifier.verify v env ud org).2 = evs := by
        simp [GeminiVerifier.verify, hv, hc]
      rw [hvv]
      exact h
    | error e =>
      have hvv : (GeminiVerifier.verify v env ud org).2 =
          evs ++ [.record org.name false] := by
        simp [GeminiVerifier.verify, hv, hc]
      rw [hvv]
      exact fpOnly_append h (by simp [fpOnly, Event.fingerprintOf])

/-- Claim C9: the device fingerprint is computed exactly once, at
construction (`init` stores the single `generate_fingerprint` result),
and every request payload of a run that carries a fingerprint carries
exactly that stored value — it is never regenerated during the run. -/
theorem C9_fingerprint_once (md5hex : String → String) (e : Entropy) (url : String)
    (env : Env) (ud : UserData) (org : Org) :
    (GeminiVerifier.init md5hex e url).fingerprint = generate_fingerprint md5hex e ∧
    fpOnly (GeminiVerifier.init md5hex e url).fingerprint
      (GeminiVerifier.verify (GeminiVerifier.init md5hex e url) env ud org).2 :=
  ⟨rfl, verify_fpOnly (GeminiVerifier.init md5hex e url) env ud org⟩

/-- Witness for C9 at a concrete run (the personal-info submission path,
whose payload carries the fingerprint). -/
theorem C9_fingerprint_once_witness :
    (GeminiVerifier.init (fun _ => ("fp0")) ent0 u0).fingerprint =
      generate_fingerprint (fun _ => ("fp0")) ent0 ∧
    fpOnly (GeminiVerifier.init (fun _ => ("fp0")) ent0 u0).fingerprint
      (GeminiVerifier.verify (GeminiVerifier.init (fun _ => ("fp0")) ent0 u0)
        envC5 ud0 org0).2 :=
  C9_fingerprint_once (fun _ => ("fp0")) ent0 u0 envC5 ud0 org0
